import Mathlib

/-!
Shallow embedding of the interactive core of
`react-native-scrollable-bottom-sheet` (src/index.tsx).

The component is a single-instance, single-threaded event-driven state
machine.  We embed:

* the caller-supplied configuration (`Props`) with its optional fields,
* the per-instance mutable state (`SheetState`): the shared animated
  `offset`, the `isOpen` flag, the three transient arbitration fields
  `canClose` / `startedClosing` / `startY`, and the inner scroll position,
* each event handler of the source (`onScroll`, `handlePanGestureEvent`,
  `handlePanGestureEnd`, `handlePanGestureStart`, the `useEffect` on the
  `visible` prop, and the tap-to-dismiss press handler), as pure state
  transformers that also return the list of arguments with which the
  `onVisibilityChange` callback is invoked.

Animations (`withSpring` / `withTiming`) are modelled by their settled
values: `withSpring(t)` / `withTiming(t)` eventually set the shared value
to `t`; a `withTiming` completion callback is executed after the settle.
The spring configurations themselves (damping / mass with their
null-coalesced defaults) are embedded separately as `SpringConfig`
values, one per `withSpring` / `springify()` site of the source.

Pixel quantities are rationals (`ℚ`), matching JavaScript arithmetic on
the values the claims exercise.
-/

/-- Caller-supplied configuration (the subset of `BottomSheetProps` the
interactive core reads).  `onVisibilityChangeDefined` models whether the
optional `onVisibilityChange` callback was supplied
(`props?.onVisibilityChange !== undefined`). -/
structure Props where
  onVisibilityChangeDefined : Bool
  swipeDownThreshold : Option ℚ
  customSheetMass : Option ℚ
  customSheetDamping : Option ℚ
  useEnteringAndExitingAnimations : Option Bool
deriving DecidableEq

/-- `props.useEnteringAndExitingAnimations === false`: the always-mounted
mode.  Any other value (including the `undefined` default) selects the
mounted-on-demand mode. -/
def alwaysMounted (p : Props) : Bool :=
  match p.useEnteringAndExitingAnimations with
  | some false => true
  | _ => false

/-- Per-instance state: React state `isOpen`, the shared animated value
`offset` (settled), the three closure-captured arbitration fields
`canClose` / `startedClosing` / `startY`, and the inner ScrollView's
content offset `scrollPos`. -/
structure SheetState where
  isOpen : Bool
  offset : ℚ
  canClose : Bool
  startedClosing : Bool
  startY : ℚ
  scrollPos : ℚ
deriving DecidableEq

/-- The sheet subtree is rendered iff `isOpen || useEnteringAndExitingAnimations === false`
(index.tsx line 250). -/
def mounted (p : Props) (s : SheetState) : Bool :=
  s.isOpen || alwaysMounted p

/-- `setOpen b`.  Host-framework mounting semantics: when the sheet
subtree goes from unmounted to mounted (see `mounted`), the inner
ScrollView is created fresh, so its content offset starts at 0. -/
def setOpen (p : Props) (b : Bool) (s : SheetState) : SheetState :=
  { s with
    isOpen := b
    scrollPos :=
      if !mounted p s && mounted p { s with isOpen := b } then 0
      else s.scrollPos }

/-- `closeSheet(updateOnChange)` (index.tsx lines 137-153).  In
always-mounted mode the offset springs to `hgt` (the resolved sheet
height, `interactiveMaxHeight ?? window height`); otherwise the offset is
set to 0 and `setOpen(false)` runs.  Returns the new state and the list
of arguments passed to `onVisibilityChange`. -/
def closeSheet (p : Props) (hgt : ℚ) (updateOnChange : Bool) (s : SheetState) :
    SheetState × List Bool :=
  let s1 :=
    if alwaysMounted p then { s with offset := hgt }
    else setOpen p false { s with offset := 0 }
  let calls := if updateOnChange && p.onVisibilityChangeDefined then [false] else []
  (s1, calls)

/-- `openSheet(updateOnChange)` (index.tsx lines 155-175).  In
always-mounted mode the offset springs to 0 and the ScrollView is
imperatively scrolled to the top; otherwise the offset is set to 0 and
`setOpen(true)` runs. -/
def openSheet (p : Props) (updateOnChange : Bool) (s : SheetState) :
    SheetState × List Bool :=
  let s1 :=
    if alwaysMounted p then { s with offset := 0, scrollPos := 0 }
    else setOpen p true { s with offset := 0 }
  let calls := if updateOnChange && p.onVisibilityChangeDefined then [true] else []
  (s1, calls)

/-- The `onScroll` handler (index.tsx lines 193-215), applied after the
scroll event has moved the content offset to `y`. -/
def onScroll (p : Props) (y : ℚ) (s : SheetState) : SheetState :=
  if alwaysMounted p then
    if y ≤ 5 then { s with canClose := true }
    else if 5 ≤ y then { s with canClose := false }
    else if s.startedClosing = false then { s with canClose := false }
    else s
  else
    if y ≤ 5 ∧ s.offset ≤ 5 then { s with canClose := true }
    else if s.startedClosing = false then { s with canClose := false }
    else s

/-- A scroll event: the inner content offset becomes `y` and the
`onScroll` handler runs on it. -/
def scrollStep (p : Props) (y : ℚ) (s : SheetState) : SheetState :=
  onScroll p y { s with scrollPos := y }

/-- `handlePanGestureEvent` (index.tsx lines 217-226): pan-move at
pointer position `y`. -/
def handlePanGestureEvent (y : ℚ) (s : SheetState) : SheetState :=
  if s.canClose then
    let s1 : SheetState := { s with startedClosing := true }
    let s2 := if s1.startY = 0 then { s1 with startY := y } else s1
    let offsetDelta := (s2.startY - y) * (-1) + s2.offset
    { s2 with offset := if offsetDelta > 0 then offsetDelta else 0 }
  else s

/-- `handlePanGestureEnd` (index.tsx lines 228-241), together with the
completion of the `withTiming` it starts: below the threshold the offset
springs back to 0 and `canClose` is forced true; otherwise
`closeSheet(true)` runs, the offset is timed to `hgt`, and the timing
completion runs `closeSheet(false)`. -/
def handlePanGestureEnd (p : Props) (hgt : ℚ) (s : SheetState) :
    SheetState × List Bool :=
  let s1 : SheetState := { s with startedClosing := false }
  if s1.offset < p.swipeDownThreshold.getD 50 then
    ({ s1 with offset := 0, canClose := true }, [])
  else
    let r1 := closeSheet p hgt true s1
    let s2 : SheetState := { r1.1 with offset := hgt }
    let r2 := closeSheet p hgt false s2
    (r2.1, r1.2 ++ r2.2)

/-- `handlePanGestureStart` (index.tsx lines 243-246). -/
def handlePanGestureStart (s : SheetState) : SheetState :=
  { s with startY := 0 }

/-- The `useEffect` on `props.visible` (index.tsx lines 177-183): run for
the new value `b` of the `visible` prop. -/
def visibleEffect (p : Props) (hgt : ℚ) (b : Bool) (s : SheetState) :
    SheetState × List Bool :=
  if b then openSheet p false s else closeSheet p hgt false s

/-- The discrete events the component reacts to. -/
inductive SheetEvent where
  | setVisible (b : Bool)
  | scroll (y : ℚ)
  | panStart
  | panMove (y : ℚ)
  | panEnd
  | tapDismiss
deriving DecidableEq

/-- One event step: the state transformer and the `onVisibilityChange`
invocations it performs.  `tapDismiss` is the `TouchableOpacity` press
handler (index.tsx lines 315-318), which runs `closeSheet(true)`. -/
def stepEvent (p : Props) (hgt : ℚ) (e : SheetEvent) (s : SheetState) :
    SheetState × List Bool :=
  match e with
  | SheetEvent.setVisible b => visibleEffect p hgt b s
  | SheetEvent.scroll y => (scrollStep p y s, [])
  | SheetEvent.panStart => (handlePanGestureStart s, [])
  | SheetEvent.panMove y => (handlePanGestureEvent y s, [])
  | SheetEvent.panEnd => handlePanGestureEnd p hgt s
  | SheetEvent.tapDismiss => closeSheet p hgt true s

/-- Run a list of events, concatenating the callback invocations. -/
def runEvents (p : Props) (hgt : ℚ) (s : SheetState) :
    List SheetEvent → SheetState × List Bool
  | [] => (s, [])
  | e :: es =>
    let r := stepEvent p hgt e s
    let r2 := runEvents p hgt r.1 es
    (r2.1, r.2 ++ r2.2)

/-- A spring configuration: the damping and mass passed to the host
animation runtime. -/
structure SpringConfig where
  damping : ℚ
  mass : ℚ
deriving DecidableEq

/-- The config of the `withSpring(height, ...)` in `closeSheet`
(index.tsx lines 140-143): `damping: customSheetDamping ?? 400`,
`mass: customSheetMass ?? 0.4`. -/
def closeSheetSpring (p : Props) : SpringConfig :=
  ⟨p.customSheetDamping.getD 400, p.customSheetMass.getD 0.4⟩

/-- The config of the `withSpring(0, ...)` in `openSheet`
(index.tsx lines 158-161): `damping: customSheetDamping ?? 400`,
`mass: customSheetMass ?? 0.4`. -/
def openSheetSpring (p : Props) : SpringConfig :=
  ⟨p.customSheetDamping.getD 400, p.customSheetMass.getD 0.4⟩

/-- The config of `SlideInDown.springify().mass(customSheetMass ?? 0.4)
.damping(customSheetDamping ?? 100)` attached as the sheet's `entering`
transition in mounted-on-demand mode (index.tsx lines 287-293). -/
def sheetEnteringSpring (p : Props) : SpringConfig :=
  ⟨p.customSheetDamping.getD 100, p.customSheetMass.getD 0.4⟩

/-- The config of `SlideOutDown.springify().mass(customSheetMass ?? 0.4)
.damping(customSheetDamping ?? 100)` attached as the sheet's `exiting`
transition in mounted-on-demand mode (index.tsx lines 294-300). -/
def sheetExitingSpring (p : Props) : SpringConfig :=
  ⟨p.customSheetDamping.getD 100, p.customSheetMass.getD 0.4⟩

/-- What `closeSheet` does to the sheet offset, as an animation command:
a spring toward `hgt` in always-mounted mode, a plain assignment to 0
otherwise (index.tsx lines 139-147). -/
inductive AnimCmd where
  | spring (target : ℚ) (cfg : SpringConfig)
  | setValue (v : ℚ)
deriving DecidableEq

def closeSheetOffsetAnim (p : Props) (hgt : ℚ) : AnimCmd :=
  if alwaysMounted p then AnimCmd.spring hgt (closeSheetSpring p)
  else AnimCmd.setValue 0

def openSheetOffsetAnim (p : Props) : AnimCmd :=
  if alwaysMounted p then AnimCmd.spring 0 (openSheetSpring p)
  else AnimCmd.setValue 0

/-- Concrete mounted-on-demand configuration (all optional props left
out, callback supplied). -/
def pOnDemand : Props :=
  { onVisibilityChangeDefined := true
    swipeDownThreshold := none
    customSheetMass := none
    customSheetDamping := none
    useEnteringAndExitingAnimations := none }

/-- Concrete always-mounted configuration
(`useEnteringAndExitingAnimations = false`). -/
def pAlways : Props :=
  { pOnDemand with useEnteringAndExitingAnimations := some false }

/-- A concrete open, unscrolled resting state. -/
def sRest : SheetState :=
  { isOpen := true, offset := 0, canClose := true, startedClosing := false,
    startY := 0, scrollPos := 0 }

/-- Modelled from the spec: the per-mode `canClose` update rule exactly as
claim C1 words it (always-mounted mode uses the scroll-AND-offset rule,
mounted-on-demand mode the pure-scroll rule).  Arguments: the mode, the
content scroll position `y`, the current sheet offset `off`, and the
current `startedClosing` / `canClose` fields; result: the claimed new
`canClose`. -/
def canCloseClaimedC1 (alwaysMountedMode : Bool) (y off : ℚ)
    (startedClosing canClose : Bool) : Bool :=
  if alwaysMountedMode then
    if y ≤ 5 ∧ off ≤ 5 then true
    else if startedClosing then canClose else false
  else
    if y ≤ 5 then true
    else if 5 ≤ y then false
    else if startedClosing then canClose else false

/-- The `canClose` update rule with the two modes assigned as the code has
them: always-mounted mode uses the pure-scroll rule, mounted-on-demand
mode the scroll-AND-offset rule. -/
def canCloseAmendedC1 (alwaysMountedMode : Bool) (y off : ℚ)
    (startedClosing canClose : Bool) : Bool :=
  if alwaysMountedMode then
    if y ≤ 5 then true
    else if 5 ≤ y then false
    else if startedClosing then canClose else false
  else
    if y ≤ 5 ∧ off ≤ 5 then true
    else if startedClosing then canClose else false

/-- Claim C1, counterexample: in always-mounted mode, with the content
scrolled to the top but the sheet offset at 100 (far from 0) and no
close-drag started, the code sets `canClose` to true (its always-mounted
branch ignores the offset), while the claim as stated demands false
(scroll within 5px AND offset within 5px). -/
theorem c1_counterexample :
    (scrollStep pAlways 0 { sRest with offset := 100, canClose := false }).canClose = true ∧
    canCloseClaimedC1 true 0 100 false false = false := by
  exact ⟨by decide, by decide⟩

/-- Claim C1 (amended): on every scroll update, `canClose` is computed per
mode with the branches as in the code: in always-mounted mode it is set
purely from the content scroll position (within 5px of the top gives
true, at or past 5px gives false, with an unreachable fallback keeping it
false unless a close-drag started); in mounted-on-demand mode it becomes
true only when the content scroll position is within 5px of the top AND
the sheet offset is within 5px of 0, and otherwise becomes false unless a
close-drag has already started. -/
theorem c1_scroll_arbitration (p : Props) (y : ℚ) (s : SheetState) :
    (scrollStep p y s).canClose =
      canCloseAmendedC1 (alwaysMounted p) y s.offset s.startedClosing s.canClose := by
  cases ha : alwaysMounted p <;>
    cases hsc : s.startedClosing <;>
      simp [scrollStep, onScroll, canCloseAmendedC1, ha, hsc] <;>
        split_ifs <;>
          first
          | (exfalso; linarith)
          | simp_all

/-- Claim C2, counterexample: with `customSheetDamping` unsupplied, the
`withSpring` calls that animate the sheet open and closed (which execute
only in always-mounted mode) use damping 400, not the claimed 100. -/
theorem c2_counterexample :
    (closeSheetSpring pAlways).damping = 400 ∧
    (openSheetSpring pAlways).damping = 400 ∧
    ¬ (closeSheetSpring pAlways).damping = 100 := by
  exact ⟨by decide, by decide, by decide⟩

/-- Claim C2 (amended): when `customSheetDamping` is not supplied, the
spring animating the sheet open (offset toward 0) and closed uses damping
400 in always-mounted mode (the `withSpring` calls of
`openSheet`/`closeSheet`), while in mounted-on-demand mode the sheet's
motion comes from the declarative entering/exiting slide springs with
damping 100; mass defaults to 0.4 in both modes. -/
theorem c2_spring_defaults (p : Props) (hgt : ℚ)
    (hd : p.customSheetDamping = none) (hm : p.customSheetMass = none) :
    (alwaysMounted p = true →
      closeSheetOffsetAnim p hgt = AnimCmd.spring hgt ⟨400, 0.4⟩ ∧
      openSheetOffsetAnim p = AnimCmd.spring 0 ⟨400, 0.4⟩) ∧
    (alwaysMounted p = false →
      sheetEnteringSpring p = ⟨100, 0.4⟩ ∧
      sheetExitingSpring p = ⟨100, 0.4⟩) := by
  refine ⟨fun ha => ?_, fun ha => ?_⟩ <;>
    simp [closeSheetOffsetAnim, openSheetOffsetAnim, closeSheetSpring,
      openSheetSpring, sheetEnteringSpring, sheetExitingSpring, ha, hd, hm]

/-- Witness for `c2_spring_defaults` at a concrete always-mounted
configuration. -/
theorem c2_spring_defaults_witness :
    closeSheetOffsetAnim pAlways 700 = AnimCmd.spring 700 ⟨400, 0.4⟩ ∧
    openSheetOffsetAnim pAlways = AnimCmd.spring 0 ⟨400, 0.4⟩ :=
  (c2_spring_defaults pAlways 700 rfl rfl).1 rfl

/-- Claim C3: for every prior state (in particular every prior inner
scroll position), the open transition triggered by the external `visible`
prop becoming true — i.e. running after the `visible = false` effect —
leaves the inner scroll position at the top, in both operating modes: via
the imperative `scrollTo(0)` in always-mounted mode, via the fresh
remount of the unmounted ScrollView in mounted-on-demand mode. -/
theorem c3_open_resets_scroll (p : Props) (hgt : ℚ) (s : SheetState) :
    ((stepEvent p hgt (SheetEvent.setVisible true)
        (stepEvent p hgt (SheetEvent.setVisible false) s).1).1).scrollPos = 0 := by
  cases ha : alwaysMounted p <;>
    simp [stepEvent, visibleEffect, openSheet, closeSheet, setOpen, mounted, ha]

/-- Claim C4, counterexample: at pan-gesture begin the code resets only
`startY`; starting from a state with `canClose = false`,
`startedClosing = true`, `startY = 7`, the handler leaves `canClose`
false and `startedClosing` true, while the claim demands they be reset to
true resp. false. -/
theorem c4_counterexample :
    (handlePanGestureStart
        { sRest with canClose := false, startedClosing := true, startY := 7 }).canClose
      = false ∧
    (handlePanGestureStart
        { sRest with canClose := false, startedClosing := true, startY := 7 }).startedClosing
      = true ∧
    (handlePanGestureStart
        { sRest with canClose := false, startedClosing := true, startY := 7 }).startY = 0 := by
  exact ⟨rfl, rfl, by decide⟩

/-- Claim C4 (amended): at the begin of every new pan gesture only
`dragStartY` is reset, to the unset sentinel 0; `startedClosing` and
`canClose` are not touched at gesture start (`startedClosing` is instead
cleared at every pan-gesture end, and `canClose` is maintained by the
scroll handler and the snap-back path). -/
theorem c4_pan_start_reset (p : Props) (hgt : ℚ) (s : SheetState) :
    handlePanGestureStart s = { s with startY := 0 } ∧
    (handlePanGestureEnd p hgt s).1.startedClosing = false := by
  refine ⟨rfl, ?_⟩
  cases ha : alwaysMounted p <;>
    simp only [handlePanGestureEnd] <;>
      split_ifs <;> simp [closeSheet, setOpen, mounted, ha]

/-- Claim C5: for every drag release at or past the swipe-down threshold
(default 50), the pan-end handler commits to closing: the
`onVisibilityChange` callback is invoked exactly once (with false) even
though `closeSheet` runs twice — notifying at release, non-notifying at
timing completion — and the sheet ends fully closed: offset at the sheet
height in always-mounted mode, unmounted in mounted-on-demand mode. -/
theorem c5_commit_close (p : Props) (hgt : ℚ) (s : SheetState)
    (hcb : p.onVisibilityChangeDefined = true)
    (hth : p.swipeDownThreshold.getD 50 ≤ s.offset) :
    (handlePanGestureEnd p hgt s).2 = [false] ∧
    ((handlePanGestureEnd p hgt s).1.offset = hgt ∨
      mounted p (handlePanGestureEnd p hgt s).1 = false) := by
  cases ha : alwaysMounted p <;>
    simp [handlePanGestureEnd, closeSheet, setOpen, mounted, hcb, ha,
      not_lt.mpr hth]

/-- Witness for `c5_commit_close`: a concrete mounted-on-demand sheet
released at offset 80 with the default threshold 50. -/
theorem c5_commit_close_witness :
    (handlePanGestureEnd pOnDemand 700 { sRest with offset := 80 }).2 = [false] ∧
    ((handlePanGestureEnd pOnDemand 700 { sRest with offset := 80 }).1.offset = 700 ∨
      mounted pOnDemand
        (handlePanGestureEnd pOnDemand 700 { sRest with offset := 80 }).1 = false) :=
  c5_commit_close pOnDemand 700 { sRest with offset := 80 } rfl (by decide)

/-- Claim C6: for every drag release strictly below the swipe-down
threshold (default 50), the pan-end handler snaps the sheet back: the
offset ends at 0, `canClose` is forced to true, and `onVisibilityChange`
is not invoked. -/
theorem c6_snap_back (p : Props) (hgt : ℚ) (s : SheetState)
    (hth : s.offset < p.swipeDownThreshold.getD 50) :
    (handlePanGestureEnd p hgt s).1.offset = 0 ∧
    (handlePanGestureEnd p hgt s).1.canClose = true ∧
    (handlePanGestureEnd p hgt s).2 = [] := by
  simp [handlePanGestureEnd, hth]

/-- Witness for `c6_snap_back`: a concrete release at offset 30 below the
default threshold 50. -/
theorem c6_snap_back_witness :
    (handlePanGestureEnd pOnDemand 700 { sRest with offset := 30 }).1.offset = 0 ∧
    (handlePanGestureEnd pOnDemand 700 { sRest with offset := 30 }).1.canClose = true ∧
    (handlePanGestureEnd pOnDemand 700 { sRest with offset := 30 }).2 = [] :=
  c6_snap_back pOnDemand 700 { sRest with offset := 30 } (by decide)

/-- Claim C7: for every change of the external `visible` prop (in either
direction), the resulting transition updates the internal open/closed
state — the `isOpen` flag in mounted-on-demand mode, the settled offset
in always-mounted mode — but never invokes the `onVisibilityChange`
callback. -/
theorem c7_visible_no_echo (p : Props) (hgt : ℚ) (b : Bool) (s : SheetState) :
    (stepEvent p hgt (SheetEvent.setVisible b) s).2 = [] ∧
    (stepEvent p hgt (SheetEvent.setVisible b) s).1.isOpen
      = cond (alwaysMounted p) s.isOpen b ∧
    (stepEvent p hgt (SheetEvent.setVisible b) s).1.offset
      = cond (alwaysMounted p) (cond b 0 hgt) 0 := by
  cases ha : alwaysMounted p <;> cases b <;>
    simp [stepEvent, visibleEffect, openSheet, closeSheet, setOpen, mounted, ha]

/-- Auxiliary: the code's positive-part conditional equals `max · 0`. -/
theorem ite_pos_eq_max (d : ℚ) : (if d > 0 then d else 0) = max d 0 := by
  rcases le_or_lt d 0 with h | h
  · rw [if_neg (not_lt.mpr h), max_eq_right h]
  · rw [if_pos h, max_eq_left h.le]

/-- Claim C8: for every pan-move with `canClose` true, the handler marks
`startedClosing`, latches `dragStartY` to the first reported position
when unset (sentinel 0), and sets the offset to
`max(-(dragStartY - currentY) + currentOffset, 0)` — in particular the
offset is never negative after such a move; a pan-move with `canClose`
false leaves the state (hence the offset) unchanged. -/
theorem c8_pan_move (y : ℚ) (s : SheetState) :
    (handlePanGestureEvent y s =
      if s.canClose then
        { s with
          startedClosing := true
          startY := if s.startY = 0 then y else s.startY
          offset := max (-((if s.startY = 0 then y else s.startY) - y) + s.offset) 0 }
      else s) ∧
    (0 ≤ (handlePanGestureEvent y s).offset ∨ handlePanGestureEvent y s = s) := by
  constructor
  · cases hc : s.canClose
    · simp [handlePanGestureEvent, hc]
    · by_cases h0 : s.startY = 0 <;>
        simp [handlePanGestureEvent, hc, h0, ite_pos_eq_max, mul_neg_one]
  · cases hc : s.canClose
    · exact Or.inr (by simp [handlePanGestureEvent, hc])
    · left
      simp only [handlePanGestureEvent, hc, if_true]
      split_ifs <;> linarith

/-- Auxiliary: every single event step only ever passes `false` to the
`onVisibilityChange` callback (the sole notifying call sites run
`closeSheet(true)`; `openSheet` is never invoked with notification). -/
theorem stepEvent_calls_false (p : Props) (hgt : ℚ) (e : SheetEvent)
    (s : SheetState) :
    ((stepEvent p hgt e s).2).all (fun b => !b) = true := by
  cases e <;>
    simp [stepEvent, visibleEffect, openSheet, closeSheet, setOpen,
      handlePanGestureEnd, scrollStep, handlePanGestureStart,
      handlePanGestureEvent] <;>
    split_ifs <;> simp

/-- Claim C9: for every sequence of events (prop changes, scrolls,
gestures, taps, animation completions), every argument ever passed to the
`onVisibilityChange` callback is `false`; it is never invoked with
`true`. -/
theorem c9_callback_only_false (p : Props) (hgt : ℚ) (s : SheetState)
    (es : List SheetEvent) :
    ((runEvents p hgt s es).2).all (fun b => !b) = true := by
  induction es generalizing s with
  | nil => simp [runEvents]
  | cons e es ih =>
    simp [runEvents, List.all_append, stepEvent_calls_false, ih]

/-- Claim C10: in mounted-on-demand mode every invocation of `closeSheet`
sets the offset to 0 (not the sheet height) and `isOpen` to false, so
after a committed swipe-close (release at or past the threshold and
timing completion) the resting offset is 0 and the sheet is closed, the
visual exit motion being delegated to the declarative exiting
transition. -/
theorem c10_on_demand_close (p : Props) (hgt : ℚ) (u : Bool) (s : SheetState)
    (hm : alwaysMounted p = false) :
    (closeSheet p hgt u s).1.offset = 0 ∧
    (closeSheet p hgt u s).1.isOpen = false ∧
    (p.swipeDownThreshold.getD 50 ≤ s.offset →
      (handlePanGestureEnd p hgt s).1.offset = 0 ∧
      (handlePanGestureEnd p hgt s).1.isOpen = false) := by
  refine ⟨by simp [closeSheet, setOpen, hm], by simp [closeSheet, setOpen, hm],
    fun hth => ?_⟩
  simp [handlePanGestureEnd, closeSheet, setOpen, mounted, hm, not_lt.mpr hth]

/-- Witness for `c10_on_demand_close`: concrete mounted-on-demand sheet,
swipe released at offset 80 against the default threshold 50. -/
theorem c10_on_demand_close_witness :
    (closeSheet pOnDemand 700 true { sRest with offset := 80 }).1.offset = 0 ∧
    (closeSheet pOnDemand 700 true { sRest with offset := 80 }).1.isOpen = false ∧
    (pOnDemand.swipeDownThreshold.getD 50 ≤ ({ sRest with offset := 80 } : SheetState).offset →
      (handlePanGestureEnd pOnDemand 700 { sRest with offset := 80 }).1.offset = 0 ∧
      (handlePanGestureEnd pOnDemand 700 { sRest with offset := 80 }).1.isOpen = false) :=
  c10_on_demand_close pOnDemand 700 true { sRest with offset := 80 } rfl

